import Mathlib

/-!
Verification of the genotype-strand reconciliation and effective-repute
classification engine of the genome-browser backend, together with the
annotation-override store, the worker skip rules and the label route.
Each definition is a shallow embedding of the corresponding Python
function (file and name given in its doc comment); theorems settle the
spec claims against these definitions.
-/

namespace GenomeBrowser

/-- Python truthiness of an optional string column: `None` and the empty
string are falsy, everything else truthy. -/
def truthy : Option String → Bool
  | none => false
  | some s => !(s == "")

/-- Per-character uppercase, as Python `str.upper` acts on ASCII text. -/
def strUpper (s : String) : String := String.mk (s.data.map Char.toUpper)

/-- Per-character lowercase, as Python `str.lower` acts on ASCII text. -/
def strLower (s : String) : String := String.mk (s.data.map Char.toLower)

/-- String reversal, Python `s[::-1]`. -/
def strRev (s : String) : String := String.mk s.data.reverse

/-- Does `p` begin the character list `t`? -/
def leadsChars : List Char → List Char → Bool
  | [], _ => true
  | _ :: _, [] => false
  | a :: as, b :: bs => a == b && leadsChars as bs

/-- Substring containment, Python `p in t`, over character lists. -/
def containsSubAux (p : List Char) : List Char → Bool
  | [] => leadsChars p []
  | c :: rest => leadsChars p (c :: rest) || containsSubAux p rest

/-- Substring containment, Python `p in t`. -/
def containsSub (t p : String) : Bool := containsSubAux p.data t.data

/-- The apostrophe character as a string (used inside phrase literals). -/
def apos : String := String.singleton (Char.ofNat 39)

/-- ASCII whitespace, the characters Python `str.strip` and the regex
class `\s` treat as space in ASCII text. -/
def isPySpace (c : Char) : Bool :=
  c == ' ' || c == '\t' || c == '\n' || c == '\r' || c == Char.ofNat 11 || c == Char.ofNat 12

/-- Python `str.strip()` on ASCII text: drop whitespace from both ends. -/
def pyStrip (s : String) : String :=
  String.mk (((s.data.dropWhile isPySpace).reverse.dropWhile isPySpace).reverse)

/-- `snpedia.complement_base`: DNA base complement; the lookup falls back
to the original (non-uppercased) character when the uppercased character
is not a recognised base. -/
def complement_base (c : Char) : Char :=
  match c.toUpper with
  | 'A' => 'T'
  | 'T' => 'A'
  | 'C' => 'G'
  | 'G' => 'C'
  | '-' => '-'
  | _ => c

/-- `snpedia.complement_genotype`: complement each character. -/
def complement_genotype (g : String) : String :=
  String.mk (g.data.map complement_base)

/-- The normalisation applied by `get_genotype_interpretation`: drop the
separators `;` and `/`, then uppercase (Python
`s.replace(";","").replace("/","").upper()`). -/
def normalize_user_genotype (s : String) : String :=
  strUpper (String.mk (s.data.filter (fun c => !(c == ';') && !(c == '/'))))

/-- The genotype table (`genotype_info` dict): association list from
canonical genotype key to interpretation text. -/
abbrev GenotypeInfo := List (String × String)

/-- Dictionary key lookup, Python `d[k]` / `k in d`. -/
def giLookup (gi : GenotypeInfo) (k : String) : Option String :=
  match gi with
  | [] => none
  | (k0, v) :: rest => if k0 == k then some v else giLookup rest k

/-- `snpedia.get_genotype_interpretation`: strand-reconciling lookup.
Tries the normalised genotype, its reversal, its complement and the
reversed complement in that order; otherwise the allele-set heuristic;
returns `(none, none)` for an empty table or genotype. -/
def get_genotype_interpretation (gi : GenotypeInfo) (user_genotype : String) :
    Option String × Option String :=
  if gi == [] || user_genotype == "" then (none, none)
  else
    let user_gt := normalize_user_genotype user_genotype
    match giLookup gi user_gt with
    | some t => (some t, some user_gt)
    | none =>
      let user_gt_rev := strRev user_gt
      match giLookup gi user_gt_rev with
      | some t => (some t, some user_gt_rev)
      | none =>
        let user_gt_comp := complement_genotype user_gt
        match giLookup gi user_gt_comp with
        | some t => (some t, some user_gt_comp)
        | none =>
          let user_gt_comp_rev := strRev user_gt_comp
          match giLookup gi user_gt_comp_rev with
          | some t => (some t, some user_gt_comp_rev)
          | none =>
            let annAlleles := gi.foldl (fun acc p => acc ++ (strUpper p.1).data) []
            let user_overlap := (strUpper user_gt).data.any (fun c => annAlleles.contains c)
            let comp_overlap := (strUpper user_gt_comp).data.any (fun c => annAlleles.contains c)
            if !user_overlap && comp_overlap then (none, some user_gt_comp)
            else (none, none)

/-- The `risk_phrases` list of `get_effective_repute`, verbatim. -/
def risk_phrases : List String := [
  "increased risk", "elevated risk", "higher risk", "greater risk",
  "risk factor", "risk variant", "risk allele",
  "fold increased", "fold higher", "-fold risk", "x increased",
  "increased susceptibility", "predisposition", "predisposed", "prone to",
  "likely pathogenic", "causes ", "associated with disease",
  "loss of function", "reduced function", "decreased function",
  "deficient", "deficiency", "impaired function",
  "carriers of this genotype face", "carriers face",
  "reduced memory", "lower performance", "reduced performance",
  "lack the beneficial", "lacks the protective",
  "intermediate risk"]

/-- The `negating_phrases` list of `get_effective_repute`, verbatim
(apostrophes written through `apos`). -/
def negating_phrases : List String := [
  "no increased risk", "not associated with increased",
  "not associated with a significantly increased",
  "not associated with a higher", "not associated with any increased",
  "do not have increased risk", "does not have increased risk",
  "don" ++ apos ++ "t have increased risk", "doesn" ++ apos ++ "t have increased risk",
  "does not confer", "no elevated risk", "without the elevated risk",
  "typical risk", "normal risk", "baseline risk", "average risk",
  "standard population risk", "population risk",
  "reduced susceptibility", "lowest odds", "lowest risk", "lower odds",
  "protective allele", "protective variant",
  "non-pathogenic", "not pathogenic", "benign",
  "common reference genotype", "reference genotype",
  "normal function", "typical function",
  "normal allele", "not a carrier", "is not a carrier",
  "homozygous for the normal", "heterozygous for the normal",
  apos ++ "normal" ++ apos ++ " variant", "\"normal\" variant", "normal variant",
  apos ++ "common" ++ apos ++ " variant", "\"common\" variant", "common variant"]

/-- The `good_phrases` list of `get_effective_repute`, verbatim. -/
def good_phrases : List String := [
  "this genotype is protective", "this is the protective",
  "protective genotype", "protective variant",
  "this genotype reduces risk", "this genotype lowers risk",
  "this genotype is beneficial", "this genotype is favorable",
  "confers protection", "provides protection"]

/-- The `normal_phrases` list of `get_effective_repute`, verbatim. -/
def normal_phrases : List String := [
  "normal function", "normal genotype", "typical genotype", "common genotype",
  "normal allele", "standard population risk", "typical risk", "average risk",
  "wild-type", "wildtype", "wild type", "reference allele", "reference genotype",
  "most common", "majority of", "vast majority",
  "does not carry", "do not carry", "not a carrier", "not carrier",
  "without the mutation", "is not a carrier",
  "normal metabolizer", "extensive metabolizer",
  "homozygous for the normal", "heterozygous for the normal"]

/-- The lines of `snpedia.get_effective_repute` after the structured-label
tier (the fall-back that matches the genotype and scans the matched
interpretation text): empty table or genotype falls back to the SNP-level
repute; a missing (or empty) interpretation gives `none`; otherwise
negation scan, risk scan (skipped under negation), good scan, normal
scan, then the negation fall-throughs, finally the SNP-level repute. -/
def repute_from_text (gi : GenotypeInfo) (user_genotype : String)
    (snp_repute : Option String) : Option String :=
  if gi == [] || user_genotype == "" then snp_repute
  else
    match (get_genotype_interpretation gi user_genotype).1 with
    | none => none
    | some interp =>
      if interp == "" then none
      else
        let text := strLower interp
        let has_negation := negating_phrases.any (fun p => containsSub text p)
        let has_pathogenic_risk := containsSub text "pathogenic" &&
          !containsSub text "non-pathogenic" && !containsSub text "not pathogenic"
        if !has_negation && (has_pathogenic_risk || risk_phrases.any (fun p => containsSub text p)) then
          some "bad"
        else if good_phrases.any (fun p => containsSub text p) then some "good"
        else if ["normal", "common", "typical", "standard", "wild-type", "wildtype"].contains (pyStrip text) then none
        else if normal_phrases.any (fun p => containsSub text p) then none
        else if snp_repute == some "bad" && has_negation then none
        else if has_negation then none
        else snp_repute

/-- `snpedia.get_effective_repute`: the structured-label tier decides a
truthy label in the closed vocabulary outright; otherwise the function
falls through to the text tier `repute_from_text`. -/
def get_effective_repute (gi : GenotypeInfo) (user_genotype : String)
    (snp_repute : Option String) (genotype_label : Option String) : Option String :=
  match genotype_label with
  | some lbl =>
    if lbl == "" then repute_from_text gi user_genotype snp_repute
    else
      let label_lower := strLower lbl
      if label_lower == "risk" || label_lower == "abnormal" then some "bad"
      else if label_lower == "protective" then some "good"
      else if label_lower == "normal" || label_lower == "neutral" ||
          label_lower == "carrier" || label_lower == "rare" then none
      else repute_from_text gi user_genotype snp_repute
  | none => repute_from_text gi user_genotype snp_repute

/-- Regex class `\w` over ASCII text: letters, digits, underscore. -/
def isWordChar (c : Char) : Bool := c.isAlpha || c.isDigit || c == '_'

/-- Regex class `[\d.]`: digits and the dot. -/
def isDigitDotChar (c : Char) : Bool := c.isDigit || c == '.'

/-- Case-insensitive literal match: consume `lit` (given lowercased) from
the head of the character list, returning the remainder. -/
def dropLitCI : List Char → List Char → Option (List Char)
  | [], cs => some cs
  | _ :: _, [] => none
  | l :: ls, c :: cs => if c.toLower == l then dropLitCI ls cs else none

/-- The tail `\s*([^\n]+)` of the classification regex, with the
backtracking of the greedy `\s*`: the group starts at the last position
reachable through whitespace that carries a non-newline character. -/
def matchTail3 : List Char → Option (List Char)
  | [] => none
  | c :: rest =>
    if isPySpace c then
      match matchTail3 rest with
      | some g => some g
      | none => if c == '\n' then none else some ((c :: rest).takeWhile (fun d => !(d == '\n')))
    else some ((c :: rest).takeWhile (fun d => !(d == '\n')))

/-- One anchored attempt of the regex
`CLASSIFICATION:\s*(\w+)\s*\|\s*(\w+)\s*\|\s*([^\n]+)` (IGNORECASE) at
the head of the list; returns the three groups. `\w`, `\s` and the
literals are disjoint, so greedy matching without further backtracking
is exact here. -/
def matchClassAt (cs : List Char) : Option (List Char × List Char × List Char) :=
  match dropLitCI "classification:".data cs with
  | none => none
  | some r0 =>
    let r1 := r0.dropWhile isPySpace
    let g1 := r1.takeWhile isWordChar
    if g1 == [] then none
    else
      match (r1.dropWhile isWordChar).dropWhile isPySpace with
      | '|' :: r3 =>
        let r4 := r3.dropWhile isPySpace
        let g2 := r4.takeWhile isWordChar
        if g2 == [] then none
        else
          match (r4.dropWhile isWordChar).dropWhile isPySpace with
          | '|' :: r6 =>
            match matchTail3 r6 with
            | some g3 => some (g1, g2, g3)
            | none => none
          | _ => none
      | _ => none

/-- `re.search` for the classification pattern: first (leftmost) position
where the anchored attempt succeeds. -/
def searchClassif : List Char → Option (List Char × List Char × List Char)
  | [] => matchClassAt []
  | c :: rest =>
    match matchClassAt (c :: rest) with
    | some r => some r
    | none => searchClassif rest

/-- `re.search(r'([\d.]+)%', s)`: leftmost maximal run of digits and dots
directly followed by a percent sign. -/
def searchFreq : List Char → Option (List Char)
  | [] => none
  | c :: rest =>
    if isDigitDotChar c then
      match (c :: rest).dropWhile isDigitDotChar with
      | '%' :: _ => some ((c :: rest).takeWhile isDigitDotChar)
      | _ => searchFreq rest
    else searchFreq rest

/-- The structured result of `extract_genotype_classification`. The
frequency is kept as the matched numeral text (no claim consults the
numeric value); whether the source's `float(...)` conversion of that
numeral succeeds or raises is modelled in
`extract_genotype_classification` itself. -/
structure GenotypeClassification where
  label : String
  confidence : String
  frequency : Option String
deriving DecidableEq

/-- Python `float()` acceptance for a numeral matched by `[\d.]+`: over
the alphabet of digits and dots, the conversion succeeds exactly when
the string has at most one dot and at least one digit — `float("12")`,
`float("12.")`, `float(".5")` succeed, while `float(".")` and
`float("1.2.3")` raise ValueError. -/
def pyFloatOk (cs : List Char) : Bool :=
  decide ((cs.filter (fun c => c == '.')).length ≤ 1) && cs.any (fun c => c.isDigit)

/-- The validation/coercion tail of `extract_genotype_classification`:
label checked against the closed vocabulary (else `neutral`), confidence
checked against high/medium/low (else `medium`). -/
def buildClassification (label0 confidence0 : String)
    (frequency : Option String) : GenotypeClassification :=
  let valid_labels := ["normal", "abnormal", "rare", "protective", "risk", "carrier", "neutral"]
  let label := if valid_labels.contains label0 then label0 else "neutral"
  let confidence := if confidence0 == "high" || confidence0 == "medium" || confidence0 == "low"
    then confidence0 else "medium"
  ⟨label, confidence, frequency⟩

/-- `learning_agent.extract_genotype_classification`: find the
classification line; lowercase and strip the first two fields; scan the
stripped third field for `([\d.]+)%` and convert the matched numeral
with `float(...)` — on a degenerate numeral such as `1.2.3` that call
raises an uncaught ValueError, modelled as `Except.error ()`; then
coerce an out-of-vocabulary label to `neutral` and an unknown
confidence to `medium`. `Except.ok none` is the source's `None` return
when the regex does not match. -/
def extract_genotype_classification (text : String) :
    Except Unit (Option GenotypeClassification) :=
  match searchClassif text.data with
  | none => .ok none
  | some (g1, g2, g3) =>
    let label0 := pyStrip (strLower (String.mk g1))
    let confidence0 := pyStrip (strLower (String.mk g2))
    let frequency_str := pyStrip (String.mk g3)
    match searchFreq frequency_str.data with
    | some n =>
      if pyFloatOk n then
        .ok (some (buildClassification label0 confidence0 (some (String.mk n))))
      else .error ()
    | none => .ok (some (buildClassification label0 confidence0 none))

/-- The columns of an `annotations` row that the override/revert logic
touches (`database.py`). `genotype_info` is the JSON-serialised genotype
table column, kept abstract as its stored text; the category-merge
column is not involved in any claim and is omitted. -/
structure Annot where
  summary : Option String
  genotype_info : Option String
  original_summary : Option String
  original_genotype_info : Option String
  source : String
  improved_at : Option String
deriving DecidableEq

/-- `database.improve_annotation` on an existing row: set `source` and
`improved_at`; for each supplied field, capture the current value into
the `original_` column only when that column is falsy, then overwrite
the field. `gi` stands for the serialised form of the supplied
`genotype_info` dict (`json.dumps` output, hence never empty). -/
def improveAnnot (a : Annot) (summary gi : Option String) (source now : String) : Annot :=
  let a1 : Annot := { a with source := source, improved_at := some now }
  let a2 : Annot :=
    match summary with
    | none => a1
    | some s => { a1 with
        original_summary := if truthy a1.original_summary then a1.original_summary else a1.summary,
        summary := some s }
  match gi with
  | none => a2
  | some g => { a2 with
      original_genotype_info :=
        if truthy a2.original_genotype_info then a2.original_genotype_info else a2.genotype_info,
      genotype_info := some g }

/-- `database.revert_annotation` on an existing row: `none` models the
`False` return when neither `original_` column is truthy; otherwise
restore each truthy original into its field, clear it, reset the source
to `snpedia` and null the improvement timestamp. -/
def revertAnnot (a : Annot) : Option Annot :=
  if !truthy a.original_summary && !truthy a.original_genotype_info then none
  else
    let a1 : Annot := { a with source := "snpedia", improved_at := none }
    let a2 : Annot :=
      if truthy a1.original_summary then
        { a1 with summary := a1.original_summary, original_summary := none }
      else a1
    if truthy a2.original_genotype_info then
      some { a2 with genotype_info := a2.original_genotype_info, original_genotype_info := none }
    else some a2

/-- Association-list lookup (a SQLite table keyed by `rsid`). -/
def alistFind {α : Type} (m : List (String × α)) (k : String) : Option α :=
  match m with
  | [] => none
  | (k0, v) :: rest => if k0 == k then some v else alistFind rest k

/-- Association-list upsert: replace the row when the key exists,
otherwise append it. -/
def alistSet {α : Type} (m : List (String × α)) (k : String) (v : α) : List (String × α) :=
  match m with
  | [] => [(k, v)]
  | (k0, v0) :: rest => if k0 == k then (k, v) :: rest else (k0, v0) :: alistSet rest k v

/-- The one column of a `snps` row the improvement steps consult. -/
structure Snp where
  genotype : Option String
deriving DecidableEq

/-- The persistent state the improvement steps read and write: the `snps`
table and the `annotations` table. -/
structure WorkerDB where
  snps : List (String × Snp)
  annots : List (String × Annot)
deriving DecidableEq

/-- The fields of a successful `claude_service.improve_annotation` result
that are persisted (`improved_summary`, `improved_genotype_info`, the
latter as its serialised text). -/
structure ImpResult where
  improved_summary : Option String
  improved_genotype_info : Option String
deriving DecidableEq

/-- Persisting an oracle improvement: `database.improve_annotation`,
which updates nothing when the row is absent. -/
def applyImprovement (db : WorkerDB) (rsid : String) (imp : ImpResult) (now : String) : WorkerDB :=
  match alistFind db.annots rsid with
  | none => db
  | some a =>
    let a1 := improveAnnot a imp.improved_summary imp.improved_genotype_info "claude" now
    { db with annots := alistSet db.annots rsid a1 }

/-- Result of one discovery-worker improvement step: the boolean the
function returns, the number of oracle calls it made, and the state it
leaves behind. -/
structure DiscoveryStep where
  ok : Bool
  oracleCalls : Nat
  db : WorkerDB
deriving DecidableEq

/-- `gene_discovery.improve_snp`: skip (returning `False`, no oracle
call) when the SNP is absent, its genotype falsy or the no-call
sentinel `--`, or its annotation carries an improvement timestamp or a
`claude`/`user` source; when no annotation exists, the SNPedia fetch is
modelled by the `fetched` parameter (`none` for a failed fetch); the
oracle call is modelled by the `oracle` parameter (`none` for an error
result). Caveat: the success branch models the persist as if the
`database.improve_annotation` call went through; in the source that
call passes a `title=` keyword the function does not accept, so the
branch raises TypeError (caught) and returns `False` without
persisting — no claim here relies on the success branch. -/
def improve_snp (db : WorkerDB) (rsid : String) (fetched : Option Annot)
    (oracle : Option ImpResult) (now : String) : DiscoveryStep :=
  match alistFind db.snps rsid with
  | none => ⟨false, 0, db⟩
  | some snp =>
    if !truthy snp.genotype || snp.genotype == some "--" then ⟨false, 0, db⟩
    else
      match alistFind db.annots rsid with
      | some a =>
        if truthy a.improved_at || a.source == "claude" || a.source == "user" then ⟨false, 0, db⟩
        else
          match oracle with
          | none => ⟨false, 1, db⟩
          | some imp => ⟨true, 1, applyImprovement db rsid imp now⟩
      | none =>
        match fetched with
        | none => ⟨false, 0, db⟩
        | some a0 =>
          let db1 : WorkerDB := { db with annots := alistSet db.annots rsid a0 }
          match oracle with
          | none => ⟨false, 1, db1⟩
          | some imp => ⟨true, 1, applyImprovement db1 rsid imp now⟩

/-- Result of one batch improvement step: the `status` field of the
returned dict, the number of oracle calls, and the resulting state. -/
structure AutoStep where
  status : String
  oracleCalls : Nat
  db : WorkerDB
deriving DecidableEq

/-- `learning_agent.auto_improve_single_snp`: skip when the SNP is absent
or its genotype falsy, or when its annotation carries an improvement
timestamp or a `claude`/`user` source; otherwise call the oracle (the
`oracle` parameter, `none` for an error result) and persist. Unlike
`improve_snp`, there is no check for the `--` no-call sentinel and no
SNPedia fetch for a missing annotation. Caveat: the `improved` status
models the persist as if the `database.improve_annotation` call went
through; in the source that call passes a `title=` keyword the
function does not accept, so the branch raises TypeError (caught) and
yields status `error` without persisting — after the oracle call has
already been made, which is all any claim here relies on. -/
def auto_improve_single_snp (db : WorkerDB) (rsid : String)
    (oracle : Option ImpResult) (now : String) : AutoStep :=
  match alistFind db.snps rsid with
  | none => ⟨"skipped", 0, db⟩
  | some snp =>
    if !truthy snp.genotype then ⟨"skipped", 0, db⟩
    else
      match alistFind db.annots rsid with
      | some a =>
        if truthy a.improved_at || a.source == "claude" || a.source == "user" then ⟨"skipped", 0, db⟩
        else
          match oracle with
          | none => ⟨"error", 1, db⟩
          | some imp => ⟨"improved", 1, applyImprovement db rsid imp now⟩
      | none =>
        match oracle with
        | none => ⟨"error", 1, db⟩
        | some imp => ⟨"improved", 1, applyImprovement db rsid imp now⟩

/-- A `genotype_labels` row (`population_frequency`, a float the claims
never consult, is omitted). -/
structure LabelRow where
  label : String
  confidence : Option String
  notes : Option String
  source : String
  updated_at : String
deriving DecidableEq

/-- The state the label route touches: which SNPs exist and the
`genotype_labels` table. -/
structure LabelsDB where
  snps : List String
  labels : List (String × LabelRow)
deriving DecidableEq

/-- `database.set_genotype_label`: unconditional upsert of the row,
last write wins. -/
def set_genotype_label (db : LabelsDB) (rsid lbl : String)
    (confidence notes : Option String) (source now : String) : LabelsDB :=
  { db with labels := alistSet db.labels rsid ⟨lbl, confidence, notes, source, now⟩ }

/-- The body of a PUT request to the label route. -/
structure LabelRequest where
  label : String
  confidence : Option String
  notes : Option String
deriving DecidableEq

/-- `routers/labels.set_label`: 404 (modelled as `none`) when the SNP
does not exist, otherwise store the submitted label through
`set_genotype_label` with source `user`. -/
def set_label (db : LabelsDB) (rsid : String) (req : LabelRequest) (now : String) : Option LabelsDB :=
  if db.snps.contains rsid then
    some (set_genotype_label db rsid req.label req.confidence req.notes "user" now)
  else none

/-- An annotation row with an empty summary column (as rows parsed from
pages without prose have), used to exercise the override-capture rule. -/
def a6 : Annot := ⟨none, some "G0", none, none, "snpedia", none⟩

/-- A SNP whose genotype is the `--` no-call sentinel. -/
def snp7 : Snp := ⟨some "--"⟩

/-- An unimproved wiki-sourced annotation row. -/
def ann7 : Annot := ⟨some "s", some "g", none, none, "snpedia", none⟩

/-- A database with one no-call SNP carrying an unimproved annotation. -/
def db7 : WorkerDB := ⟨[("rs1", snp7)], [("rs1", ann7)]⟩

/-- A successful oracle improvement result. -/
def imp7 : ImpResult := ⟨some "better", some "gi"⟩

/-- A label store knowing one SNP and holding no labels. -/
def ldb9 : LabelsDB := ⟨["rs123"], []⟩

/-- A PUT body carrying a label outside the closed vocabulary. -/
def req9 : LabelRequest := ⟨"bogus_value", none, none⟩

/-! Helper lemmas shared by the claim theorems. -/

/-- `truthy` of a NULL column. -/
lemma truthy_none : truthy none = false := rfl

/-- The emptiness guard of the matcher and the text tier, as a boolean
equation, from the two disequalities. -/
lemma guard_false {gi : GenotypeInfo} {ug : String} (h1 : gi ≠ []) (h2 : ug ≠ "") :
    (gi == [] || ug == "") = false := by
  have a : (gi == []) = false := beq_eq_false_iff_ne.mpr h1
  have b : (ug == "") = false := beq_eq_false_iff_ne.mpr h2
  rw [a, b]; rfl

/-- Empty table or empty genotype: the matcher returns `(none, none)`. -/
lemma matcher_empty (gi : GenotypeInfo) (ug : String)
    (h : (gi == [] || ug == "") = true) :
    get_genotype_interpretation gi ug = (none, none) := by
  unfold get_genotype_interpretation
  rw [if_pos h]

/-- Rule 1: direct key hit on the normalised genotype. -/
lemma matcher_direct (gi : GenotypeInfo) (ug : String) (t : String)
    (hc : (gi == [] || ug == "") = false)
    (h : giLookup gi (normalize_user_genotype ug) = some t) :
    get_genotype_interpretation gi ug = (some t, some (normalize_user_genotype ug)) := by
  unfold get_genotype_interpretation
  rw [if_neg (by rw [hc]; simp)]
  simp only [h]

/-- Rule 2: order-reversed key hit, after rule 1 missed. -/
lemma matcher_rev (gi : GenotypeInfo) (ug : String) (t : String)
    (hc : (gi == [] || ug == "") = false)
    (h1 : giLookup gi (normalize_user_genotype ug) = none)
    (h : giLookup gi (strRev (normalize_user_genotype ug)) = some t) :
    get_genotype_interpretation gi ug = (some t, some (strRev (normalize_user_genotype ug))) := by
  unfold get_genotype_interpretation
  rw [if_neg (by rw [hc]; simp)]
  simp only [h1, h]

/-- Rule 3: complement key hit, after rules 1 and 2 missed. -/
lemma matcher_comp (gi : GenotypeInfo) (ug : String) (t : String)
    (hc : (gi == [] || ug == "") = false)
    (h1 : giLookup gi (normalize_user_genotype ug) = none)
    (h2 : giLookup gi (strRev (normalize_user_genotype ug)) = none)
    (h : giLookup gi (complement_genotype (normalize_user_genotype ug)) = some t) :
    get_genotype_interpretation gi ug =
      (some t, some (complement_genotype (normalize_user_genotype ug))) := by
  unfold get_genotype_interpretation
  rw [if_neg (by rw [hc]; simp)]
  simp only [h1, h2, h]

/-- Rule 4: reversed-complement key hit, after rules 1 to 3 missed. -/
lemma matcher_comprev (gi : GenotypeInfo) (ug : String) (t : String)
    (hc : (gi == [] || ug == "") = false)
    (h1 : giLookup gi (normalize_user_genotype ug) = none)
    (h2 : giLookup gi (strRev (normalize_user_genotype ug)) = none)
    (h3 : giLookup gi (complement_genotype (normalize_user_genotype ug)) = none)
    (h : giLookup gi (strRev (complement_genotype (normalize_user_genotype ug))) = some t) :
    get_genotype_interpretation gi ug =
      (some t, some (strRev (complement_genotype (normalize_user_genotype ug)))) := by
  unfold get_genotype_interpretation
  rw [if_neg (by rw [hc]; simp)]
  simp only [h1, h2, h3, h]

/-- Rule 5/6: no transform is a key, so the allele-set heuristic decides. -/
lemma matcher_heuristic (gi : GenotypeInfo) (ug : String)
    (hc : (gi == [] || ug == "") = false)
    (h1 : giLookup gi (normalize_user_genotype ug) = none)
    (h2 : giLookup gi (strRev (normalize_user_genotype ug)) = none)
    (h3 : giLookup gi (complement_genotype (normalize_user_genotype ug)) = none)
    (h4 : giLookup gi (strRev (complement_genotype (normalize_user_genotype ug))) = none) :
    get_genotype_interpretation gi ug =
      (if !((strUpper (normalize_user_genotype ug)).data.any fun c =>
              (gi.foldl (fun acc p => acc ++ (strUpper p.1).data) []).contains c) &&
          ((strUpper (complement_genotype (normalize_user_genotype ug))).data.any fun c =>
              (gi.foldl (fun acc p => acc ++ (strUpper p.1).data) []).contains c)
       then (none, some (complement_genotype (normalize_user_genotype ug)))
       else (none, none)) := by
  unfold get_genotype_interpretation
  rw [if_neg (by rw [hc]; simp)]
  simp only [h1, h2, h3, h4]

/-- A three-deep conditional all of whose branches are `none`. -/
lemma ite_all_none {c1 c2 c3 : Prop} [Decidable c1] [Decidable c2] [Decidable c3] :
    (if c1 then (none : Option String) else if c2 then none else if c3 then none else none)
      = none := by
  split
  · rfl
  · split
    · rfl
    · split <;> rfl

/-! The claim theorems. -/

/-- C1: for every genotype table, user genotype and default SNP-level
polarity, a supplied label from the closed vocabulary decides
`get_effective_repute` outright — `risk`/`abnormal` give `bad`,
`protective` gives `good`, the rest give no badge — independently of the
table, the interpretation texts and the default polarity (which the
conclusion does not mention). -/
theorem label_override_authoritative (gi : GenotypeInfo) (ug : String)
    (sr : Option String) (lbl : String)
    (h : lbl ∈ ["normal", "abnormal", "rare", "protective", "risk", "carrier", "neutral"]) :
    get_effective_repute gi ug sr (some lbl) =
      (if lbl = "risk" ∨ lbl = "abnormal" then some "bad"
       else if lbl = "protective" then some "good" else none) := by
  fin_cases h <;> rfl

/-- C1 witness. -/
theorem label_override_authoritative_witness :
    get_effective_repute [] "" none (some "protective") = some "good" := by
  have h := label_override_authoritative [] "" none "protective" (by decide)
  rw [h]; decide

/-- C2 counterexample: with no label, an empty genotype table and a `bad`
SNP-level default, classify returns the guessed default `bad`, not the
`null` the claim states for "table empty or absent". -/
theorem empty_table_falls_back_to_default :
    get_effective_repute [] "AA" (some "bad") none = some "bad" := by decide

/-- C2 as amended: with no label, if the table and the user genotype are
both non-empty and the strand matcher finds no interpretation text, the
result is null; when the table or the genotype is empty or absent, the
function instead falls back to the SNP-level default polarity. -/
theorem no_interpretation_yields_null :
    (∀ (gi : GenotypeInfo) (ug : String) (sr : Option String), gi ≠ [] → ug ≠ "" →
        (get_genotype_interpretation gi ug).1 = none →
        get_effective_repute gi ug sr none = none) ∧
    (∀ (ug : String) (sr : Option String), get_effective_repute [] ug sr none = sr) ∧
    (∀ (gi : GenotypeInfo) (sr : Option String), get_effective_repute gi "" sr none = sr) := by
  refine ⟨?_, ?_, ?_⟩
  · intro gi ug sr h1 h2 h3
    have hc := guard_false h1 h2
    unfold get_effective_repute repute_from_text
    rw [if_neg (by rw [hc]; simp)]
    simp only [h3]
  · intro ug sr
    unfold get_effective_repute repute_from_text
    rw [if_pos (by simp)]
  · intro gi sr
    unfold get_effective_repute repute_from_text
    rw [if_pos (by simp)]

/-- C2 witness for the amended claim: a table for the opposite alleles
with no overlap gives no interpretation, and the result is null even
though the SNP-level default is `bad`. -/
theorem no_interpretation_yields_null_witness :
    get_effective_repute [("CC", "x")] "AA" (some "bad") none = none :=
  no_interpretation_yields_null.1 [("CC", "x")] "AA" (some "bad")
    (by decide) (by decide) (by decide)

/-- C3: the strand matcher tries the normalised genotype, its reversal,
its complement and the reversed complement in strict first-match-wins
order, returns `(none, none)` on an empty table or genotype, and on the
spec's example table maps user genotype `AG` to the `CT` entry. -/
theorem strand_matcher_precedence :
    (∀ (gi : GenotypeInfo) (ug t : String), gi ≠ [] → ug ≠ "" →
        giLookup gi (normalize_user_genotype ug) = some t →
        get_genotype_interpretation gi ug = (some t, some (normalize_user_genotype ug))) ∧
    (∀ (gi : GenotypeInfo) (ug t : String), gi ≠ [] → ug ≠ "" →
        giLookup gi (normalize_user_genotype ug) = none →
        giLookup gi (strRev (normalize_user_genotype ug)) = some t →
        get_genotype_interpretation gi ug = (some t, some (strRev (normalize_user_genotype ug)))) ∧
    (∀ (gi : GenotypeInfo) (ug t : String), gi ≠ [] → ug ≠ "" →
        giLookup gi (normalize_user_genotype ug) = none →
        giLookup gi (strRev (normalize_user_genotype ug)) = none →
        giLookup gi (complement_genotype (normalize_user_genotype ug)) = some t →
        get_genotype_interpretation gi ug =
          (some t, some (complement_genotype (normalize_user_genotype ug)))) ∧
    (∀ (gi : GenotypeInfo) (ug t : String), gi ≠ [] → ug ≠ "" →
        giLookup gi (normalize_user_genotype ug) = none →
        giLookup gi (strRev (normalize_user_genotype ug)) = none →
        giLookup gi (complement_genotype (normalize_user_genotype ug)) = none →
        giLookup gi (strRev (complement_genotype (normalize_user_genotype ug))) = some t →
        get_genotype_interpretation gi ug =
          (some t, some (strRev (complement_genotype (normalize_user_genotype ug))))) ∧
    (∀ ug : String, get_genotype_interpretation [] ug = (none, none)) ∧
    (∀ gi : GenotypeInfo, get_genotype_interpretation gi "" = (none, none)) ∧
    get_genotype_interpretation
      [("CC", "normal, common variant"), ("CT", "carrier, reduced enzyme activity"),
       ("TT", "deficient, low enzyme activity")] "AG"
      = (some "carrier, reduced enzyme activity", some "CT") := by
  refine ⟨?_, ?_, ?_, ?_, ?_, ?_, by decide⟩
  · intro gi ug t h1 h2 h3
    exact matcher_direct gi ug t (guard_false h1 h2) h3
  · intro gi ug t h1 h2 h3 h4
    exact matcher_rev gi ug t (guard_false h1 h2) h3 h4
  · intro gi ug t h1 h2 h3 h4 h5
    exact matcher_comp gi ug t (guard_false h1 h2) h3 h4 h5
  · intro gi ug t h1 h2 h3 h4 h5 h6
    exact matcher_comprev gi ug t (guard_false h1 h2) h3 h4 h5 h6
  · intro ug
    exact matcher_empty [] ug (by simp)
  · intro gi
    exact matcher_empty gi "" (by simp)

/-- C3 witness: a direct key hit on the normalised form of a
separator-containing lowercase genotype. -/
theorem strand_matcher_precedence_witness :
    get_genotype_interpretation [("AA", "x")] "a;a" = (some "x", some "AA") :=
  strand_matcher_precedence.1 [("AA", "x")] "a;a" "x" (by decide) (by decide) (by decide)

/-- C4 counterexample: a matched interpretation that contains both a
negating phrase and a risk phrase, and also one of the good phrases,
classifies as `good` — not the `null` the claim states. -/
theorem negated_risk_with_good_phrase_returns_good :
    (get_genotype_interpretation [("AA", "increased risk but protective variant")] "AA").1
      = some "increased risk but protective variant" ∧
    (negating_phrases.any fun p =>
      containsSub (strLower "increased risk but protective variant") p) = true ∧
    (risk_phrases.any fun p =>
      containsSub (strLower "increased risk but protective variant") p) = true ∧
    get_effective_repute [("AA", "increased risk but protective variant")] "AA" none none
      = some "good" := by
  refine ⟨by decide, by decide, by decide, by decide⟩

/-- C4 as amended: with no label, when the matched interpretation text
contains a negating phrase (and, as the claim supposes, also a risk
phrase), classify never returns `bad`; it returns null unless the text
also contains one of the good phrases (in which case it returns
`good`). The negation scan is applied before the risk scan. -/
theorem negation_blocks_risk (gi : GenotypeInfo) (ug : String) (sr : Option String) (t : String)
    (hmatch : (get_genotype_interpretation gi ug).1 = some t)
    (hneg : (negating_phrases.any fun p => containsSub (strLower t) p) = true)
    (hrisk : (risk_phrases.any fun p => containsSub (strLower t) p) = true) :
    get_effective_repute gi ug sr none ≠ some "bad" ∧
    ((good_phrases.all fun p => !containsSub (strLower t) p) = true →
      get_effective_repute gi ug sr none = none) := by
  have hc : (gi == [] || ug == "") = false := by
    cases hb : (gi == [] || ug == "") with
    | false => rfl
    | true =>
      rw [matcher_empty gi ug hb] at hmatch
      simp at hmatch
  have ht : (t == "") = false := by
    cases hb : (t == "") with
    | false => rfl
    | true =>
      have ht2 : t = "" := by simpa using hb
      subst ht2
      exact absurd hneg (by decide)
  have hkey : get_effective_repute gi ug sr none =
      (if (good_phrases.any fun p => containsSub (strLower t) p) = true
       then some "good" else none) := by
    unfold get_effective_repute repute_from_text
    rw [if_neg (by rw [hc]; simp)]
    simp only [hmatch]
    rw [if_neg (by rw [ht]; simp)]
    rw [hneg]
    simp only [Bool.not_true, Bool.false_and, Bool.and_true]
    rw [if_neg (by simp)]
    by_cases hg : (good_phrases.any fun p => containsSub (strLower t) p) = true
    · rw [if_pos hg, if_pos hg]
    · rw [if_neg hg, if_neg hg]
      simp only [if_true]
      exact ite_all_none
  constructor
  · rw [hkey]
    by_cases hg : (good_phrases.any fun p => containsSub (strLower t) p) = true
    · rw [if_pos hg]; simp
    · rw [if_neg hg]; simp
  · intro hall
    have hg : ¬((good_phrases.any fun p => containsSub (strLower t) p) = true) := by
      intro hgb
      simp only [List.any_eq_true] at hgb
      obtain ⟨p, hp, hcp⟩ := hgb
      simp only [List.all_eq_true] at hall
      have h2 := hall p hp
      rw [hcp] at h2
      simp at h2
    rw [hkey, if_neg hg]

/-- C4 witness for the amended claim: "not associated with increased
risk" contains both a negating and a risk phrase and no good phrase, so
the result is null, not `bad`. -/
theorem negation_blocks_risk_witness :
    get_effective_repute [("AA", "not associated with increased risk")] "AA" none none = none := by
  have h := negation_blocks_risk [("AA", "not associated with increased risk")] "AA" none
    "not associated with increased risk" (by decide) (by decide) (by decide)
  exact h.2 (by decide)

/-- C5: when no transform of the normalised genotype is a key of a
non-empty table and the genotype is non-empty, the allele-set heuristic
decides: alleles disjoint from the table's allele union while the
complemented alleles overlap it gives `(none, complemented genotype)`,
anything else `(none, none)`. -/
theorem allele_overlap_heuristic (gi : GenotypeInfo) (ug : String)
    (h1 : gi ≠ []) (h2 : ug ≠ "")
    (hd : giLookup gi (normalize_user_genotype ug) = none)
    (hr : giLookup gi (strRev (normalize_user_genotype ug)) = none)
    (hcm : giLookup gi (complement_genotype (normalize_user_genotype ug)) = none)
    (hcr : giLookup gi (strRev (complement_genotype (normalize_user_genotype ug))) = none) :
    get_genotype_interpretation gi ug =
      (if !((strUpper (normalize_user_genotype ug)).data.any fun c =>
              (gi.foldl (fun acc p => acc ++ (strUpper p.1).data) []).contains c) &&
          ((strUpper (complement_genotype (normalize_user_genotype ug))).data.any fun c =>
              (gi.foldl (fun acc p => acc ++ (strUpper p.1).data) []).contains c)
       then (none, some (complement_genotype (normalize_user_genotype ug)))
       else (none, none)) :=
  matcher_heuristic gi ug (guard_false h1 h2) hd hr hcm hcr

/-- C5 witness: table alleles `{T,G}`, user `AA` (alleles `{A}`,
complement alleles `{T}`): no transform is a key, the user's alleles
are disjoint from the table's but the complement's are not, so the
matcher returns `(none, "TT")`. -/
theorem allele_overlap_heuristic_witness :
    get_genotype_interpretation [("TG", "v")] "AA" = (none, some "TT") := by
  have h := allele_overlap_heuristic [("TG", "v")] "AA"
    (by decide) (by decide) (by decide) (by decide) (by decide) (by decide)
  rw [h]; decide

/-- C10: the pair returned by the strand matcher is consistent with the
table: a non-null interpretation comes with a matched key that is in
the table and maps to exactly that text; a null interpretation with a
non-null matched key (the complemented-genotype signal) names a key
that is not in the table. -/
theorem matcher_result_consistent (gi : GenotypeInfo) (ug : String) :
    (∀ t, (get_genotype_interpretation gi ug).1 = some t →
        ∃ k, (get_genotype_interpretation gi ug).2 = some k ∧ giLookup gi k = some t) ∧
    ((get_genotype_interpretation gi ug).1 = none →
        ∀ k, (get_genotype_interpretation gi ug).2 = some k → giLookup gi k = none) := by
  cases hb : (gi == [] || ug == "") with
  | true =>
    rw [matcher_empty gi ug hb]
    exact ⟨fun t ht => by simp at ht, fun _ k hk => by simp at hk⟩
  | false =>
    cases hd : giLookup gi (normalize_user_genotype ug) with
    | some t0 =>
      rw [matcher_direct gi ug t0 hb hd]
      refine ⟨fun t ht => ?_, fun hn => by simp at hn⟩
      obtain rfl : t0 = t := Option.some.inj ht
      exact ⟨normalize_user_genotype ug, rfl, hd⟩
    | none =>
      cases hr : giLookup gi (strRev (normalize_user_genotype ug)) with
      | some t0 =>
        rw [matcher_rev gi ug t0 hb hd hr]
        refine ⟨fun t ht => ?_, fun hn => by simp at hn⟩
        obtain rfl : t0 = t := Option.some.inj ht
        exact ⟨strRev (normalize_user_genotype ug), rfl, hr⟩
      | none =>
        cases hcm : giLookup gi (complement_genotype (normalize_user_genotype ug)) with
        | some t0 =>
          rw [matcher_comp gi ug t0 hb hd hr hcm]
          refine ⟨fun t ht => ?_, fun hn => by simp at hn⟩
          obtain rfl : t0 = t := Option.some.inj ht
          exact ⟨complement_genotype (normalize_user_genotype ug), rfl, hcm⟩
        | none =>
          cases hcr : giLookup gi (strRev (complement_genotype (normalize_user_genotype ug))) with
          | some t0 =>
            rw [matcher_comprev gi ug t0 hb hd hr hcm hcr]
            refine ⟨fun t ht => ?_, fun hn => by simp at hn⟩
            obtain rfl : t0 = t := Option.some.inj ht
            exact ⟨strRev (complement_genotype (normalize_user_genotype ug)), rfl, hcr⟩
          | none =>
            rw [matcher_heuristic gi ug hb hd hr hcm hcr]
            by_cases hcond : (!((strUpper (normalize_user_genotype ug)).data.any fun c =>
                  (gi.foldl (fun acc p => acc ++ (strUpper p.1).data) []).contains c) &&
                ((strUpper (complement_genotype (normalize_user_genotype ug))).data.any fun c =>
                  (gi.foldl (fun acc p => acc ++ (strUpper p.1).data) []).contains c)) = true
            · rw [if_pos hcond]
              refine ⟨fun t ht => by simp at ht, fun _ k hk => ?_⟩
              obtain rfl : complement_genotype (normalize_user_genotype ug) = k :=
                Option.some.inj hk
              exact hcm
            · rw [if_neg hcond]
              exact ⟨fun t ht => by simp at ht, fun _ k hk => by simp at hk⟩

/-- C10 witness: a direct hit, instantiating the non-null branch. -/
theorem matcher_result_consistent_witness :
    ∃ k, (get_genotype_interpretation [("AA", "x")] "AA").2 = some k ∧
      giLookup [("AA", "x")] k = some "x" :=
  (matcher_result_consistent [("AA", "x")] "AA").1 "x" (by decide)

/-- C6 counterexample: starting from an annotation whose summary column
is empty, two successive overrides and a revert leave the summary at
the value written by the *first* override (`S1`), not the null summary
that was current when the first override was applied — the falsy-check
lets the second override recapture the original. -/
theorem revert_after_empty_original_recapture :
    (revertAnnot (improveAnnot (improveAnnot a6 (some "S1") (some "G1") "claude" "t1")
        (some "S2") (some "G2") "claude" "t2")).map (fun a => a.summary)
      = some (some "S1") ∧ a6.summary = none := by
  refine ⟨by decide, rfl⟩

/-- C6 as amended: for an annotation whose summary and genotype table are
both non-empty and whose original columns are still unset, two
successive full overrides followed by a revert restore exactly the
fields captured at the first override — the pre-override summary and
genotype table — with the source reset and the improvement timestamp
cleared. -/
theorem revert_restores_first_original (a : Annot) (s1 g1 s2 g2 src1 src2 t1 t2 : String)
    (hs : truthy a.summary = true) (hg : truthy a.genotype_info = true)
    (h1 : a.original_summary = none) (h2 : a.original_genotype_info = none) :
    revertAnnot (improveAnnot (improveAnnot a (some s1) (some g1) src1 t1)
        (some s2) (some g2) src2 t2)
      = some { a with source := "snpedia", improved_at := none } := by
  simp [improveAnnot, revertAnnot, h1, h2, hs, hg, truthy_none]

/-- C6 witness for the amended claim. -/
theorem revert_restores_first_original_witness :
    revertAnnot (improveAnnot (improveAnnot
        (Annot.mk (some "S0") (some "G0") none none "snpedia" none)
        (some "S1") (some "G1") "claude" "t1") (some "S2") (some "G2") "user" "t2")
      = some (Annot.mk (some "S0") (some "G0") none none "snpedia" none) := by
  have h := revert_restores_first_original
    (Annot.mk (some "S0") (some "G0") none none "snpedia" none)
    "S1" "G1" "S2" "G2" "claude" "user" "t1" "t2" (by decide) (by decide) rfl rfl
  exact h

/-- C7: on a SNP whose genotype is the `--` no-call sentinel and whose
annotation is unimproved, the discovery worker's step skips (returns
`False`, zero oracle calls, state unchanged), but the batch step
`auto_improve_single_snp` — which lacks the sentinel check — performs
an oracle call and does not report `skipped`, contradicting the
claim's (and the spec's) no-call skip rule. -/
theorem nocall_skip_divergence :
    (improve_snp db7 "rs1" none (some imp7) "t").ok = false ∧
    (improve_snp db7 "rs1" none (some imp7) "t").oracleCalls = 0 ∧
    (improve_snp db7 "rs1" none (some imp7) "t").db = db7 ∧
    (auto_improve_single_snp db7 "rs1" (some imp7) "t").oracleCalls = 1 ∧
    (auto_improve_single_snp db7 "rs1" (some imp7) "t").status ≠ "skipped" := by
  refine ⟨by decide, by decide, by decide, by decide, by decide⟩

/-- C8 counterexample: the classification regex matches this text (an
out-of-vocabulary first field, and a percentage-like third field whose
numeral `1.2.3` is not a float literal), yet extraction raises — the
source's uncaught `float("1.2.3")` ValueError — instead of returning a
result with the first field coerced. -/
theorem degenerate_percent_raises :
    (searchClassif "CLASSIFICATION: bogus_value | high | 1.2.3%".data).isSome = true ∧
    extract_genotype_classification "CLASSIFICATION: bogus_value | high | 1.2.3%"
      = Except.error () := by
  refine ⟨by decide, rfl⟩

/-- C8 as amended: whenever the classification regex matches and the
percentage numeral matched in the stripped third field — if any — is a
well-formed float literal, extraction succeeds and coerces: a first
field outside the closed vocabulary to `neutral`, a second field
outside high/medium/low to `medium`, and no percentage match to a null
frequency; and the spec's concrete example evaluates accordingly (its
valid `high` confidence kept). A matched degenerate numeral instead
raises (see the counterexample). -/
theorem classification_coercion :
    (∀ (t : String) (l c f : List Char), searchClassif t.data = some (l, c, f) →
      Option.all pyFloatOk (searchFreq (pyStrip (String.mk f)).data) = true →
      ∃ r, extract_genotype_classification t = .ok (some r) ∧
        ((["normal", "abnormal", "rare", "protective", "risk", "carrier",
            "neutral"].contains (pyStrip (strLower (String.mk l)))) = false →
          r.label = "neutral") ∧
        (((pyStrip (strLower (String.mk c)) == "high") ||
          (pyStrip (strLower (String.mk c)) == "medium") ||
          (pyStrip (strLower (String.mk c)) == "low")) = false →
          r.confidence = "medium") ∧
        (searchFreq (pyStrip (String.mk f)).data = none → r.frequency = none)) ∧
    extract_genotype_classification
      "Some explanation.\nCLASSIFICATION: bogus_value | high | unknown"
      = .ok (some ⟨"neutral", "high", none⟩) := by
  constructor
  · intro t l c f h hfl
    unfold extract_genotype_classification
    rw [h]
    cases hm : searchFreq (pyStrip (String.mk f)).data with
    | none =>
      simp only [hm]
      refine ⟨_, rfl, fun hl => ?_, fun hc2 => ?_, fun _ => rfl⟩
      · simp only [buildClassification, hl]
        simp
      · simp only [buildClassification, hc2]
        simp
    | some n =>
      rw [hm] at hfl
      simp only [Option.all] at hfl
      simp only [hm]
      rw [if_pos hfl]
      refine ⟨_, rfl, fun hl => ?_, fun hc2 => ?_, fun hf => ?_⟩
      · simp only [buildClassification, hl]
        simp
      · simp only [buildClassification, hc2]
        simp
      · exact Option.noConfusion hf
  · rfl

/-- C8 witness for the amended claim. -/
theorem classification_coercion_witness :
    ∃ r, extract_genotype_classification "x CLASSIFICATION: zz9 | wat | nothing"
        = .ok (some r) ∧
      r.label = "neutral" ∧ r.confidence = "medium" ∧ r.frequency = none := by
  obtain ⟨r, hr, h1, h2, h3⟩ := classification_coercion.1
    "x CLASSIFICATION: zz9 | wat | nothing" "zz9".data "wat".data "nothing".data
    (by decide) (by decide)
  exact ⟨r, hr, h1 (by decide), h2 (by decide), h3 (by decide)⟩

/-- C9: the user-facing label route accepts a label outside the closed
vocabulary for an existing SNP and stores it verbatim — the request is
neither rejected nor coerced, contradicting the claim's (and the
spec's) reject-at-the-boundary rule. -/
theorem set_label_stores_out_of_vocab :
    ("bogus_value" ∉ ["normal", "abnormal", "rare", "protective", "risk", "carrier", "neutral"]) ∧
    set_label ldb9 "rs123" req9 "t"
      = some ⟨["rs123"], [("rs123", ⟨"bogus_value", none, none, "user", "t"⟩)]⟩ := by
  refine ⟨by decide, by decide⟩

end GenomeBrowser
